import Mathlib

set_option maxRecDepth 40000

/- Shallow embedding of the iran-hijri date conversion library.
   JS `Math.floor(a / b)` is modelled as `Int.fdiv`, JS `%` as `Int.tmod`. -/

/-- Error kinds corresponding to the exceptions the JS code can throw,
plus the validation rejections at the facade boundary. -/
inductive ConvErr where
  | invalidDate
  | yearOutOfRange
  | invalidMonth
  | beforeHijriEpoch
  | noOfficialDataForYear
  | missingYearData
  deriving DecidableEq, Repr

/-- A Hijri date triple, as the `{hy, hm, hd}` objects of the source. -/
structure HijriD where
  hy : Int
  hm : Int
  hd : Int
  deriving DecidableEq, Repr

/-- A Jalaali date triple, as the `{jy, jm, jd}` objects of the source. -/
structure JalaaliD where
  jy : Int
  jm : Int
  jd : Int
  deriving DecidableEq, Repr

/-- A Gregorian date triple, as the `{gy, gm, gd}` objects of the source. -/
structure GregD where
  gy : Int
  gm : Int
  gd : Int
  deriving DecidableEq, Repr

/-- The list of integers s, s+1, ..., s+n-1; used to model the JS
`for` loops that run over a contiguous range of integers. -/
def intRange (s : Int) : Nat → List Int
  | 0 => []
  | n + 1 => s :: intRange (s + 1) n

/- ===== Tabular Hijri engine (src/officialData.js, tabular half) ===== -/

/-- Julian Day Number of 1 Muharram 1 AH (Iranian convention), `HIJRI_EPOCH`. -/
def HIJRI_EPOCH : Int := 1948440

/-- `LEAP_YEARS_IN_CYCLE`: 1-indexed leap positions of the 30-year cycle. -/
def LEAP_YEARS_IN_CYCLE : List Int := [2, 5, 7, 10, 13, 16, 18, 21, 24, 26, 29]

/-- `TABULAR_MONTH_LENGTHS` for months 1-12 (month 12 adjusted for leap years). -/
def TABULAR_MONTH_LENGTHS : List Int := [30, 29, 30, 29, 30, 29, 30, 29, 30, 29, 30, 29]

/-- `isTabularLeapYear(year)`: position in the 30-year cycle is a leap slot. -/
def isTabularLeapYear (year : Int) : Bool :=
  LEAP_YEARS_IN_CYCLE.contains ((year - 1).tmod 30 + 1)

/-- Body of `getTabularMonthLength(year, month)` after its month-range guard;
the guard itself is `getTabularMonthLengthE`. -/
def getTabularMonthLengthCore (year month : Int) : Int :=
  if month < 12 then TABULAR_MONTH_LENGTHS.getD (month - 1).toNat 0
  else if isTabularLeapYear year then 30 else 29

/-- `getTabularMonthLength(year, month)` with its throw on month outside 1..12. -/
def getTabularMonthLengthE (year month : Int) : Except ConvErr Int :=
  if month < 1 || month > 12 then .error .invalidMonth
  else .ok (getTabularMonthLengthCore year month)

/-- `getTabularYearLength(year)`: 355 days in leap years, else 354. -/
def getTabularYearLength (year : Int) : Int :=
  if isTabularLeapYear year then 355 else 354

/-- The loop `for (y = 1; y <= remainingYears; y++) totalDays += getTabularYearLength(y)`
of `getDaysFromEpochTabular`: day total of the first `j` years of a 30-year cycle. -/
def inCycleYearDays (j : Int) : Int :=
  (intRange 1 j.toNat).foldl (fun acc y => acc + getTabularYearLength y) 0

/-- Days from the Hijri epoch to the start of year `year` as accumulated by
`getDaysFromEpochTabular`: whole 30-year cycles at 10631 days each plus the
partial-cycle years. -/
def tabularYearStartDays (year : Int) : Int :=
  (year - 1).fdiv 30 * 10631 + inCycleYearDays ((year - 1).tmod 30)

/-- The loop `for (m = 1; m < month; m++) totalDays += getTabularMonthLength(year, m)`
of `getDaysFromEpochTabular`; propagates the month-range throw.  The fuel 13
covers every reachable iteration: the index starts at 1 and
`getTabularMonthLengthE` throws at index 13. -/
def tabMonthSumGo (year month : Int) : Nat → Int → Int → Except ConvErr Int
  | 0, _, acc => .ok acc
  | fuel + 1, m, acc =>
    if m < month then
      match getTabularMonthLengthE year m with
      | .error e => .error e
      | .ok len => tabMonthSumGo year month fuel (m + 1) (acc + len)
    else .ok acc

/-- Day total of the whole months before `month` in year `year` (tabular). -/
def tabMonthSum (year month : Int) : Except ConvErr Int :=
  tabMonthSumGo year month 13 1 0

/-- `getDaysFromEpochTabular(year, month, day)`: throws when the year is outside
1..5000, otherwise days from the Hijri epoch to the given date. -/
def getDaysFromEpochTabular (year month day : Int) : Except ConvErr Int :=
  if year < 1 || year > 5000 then .error .yearOutOfRange
  else
    match tabMonthSum year month with
    | .error e => .error e
    | .ok monthsSum => .ok (tabularYearStartDays year + monthsSum + (day - 1))

/-- `hijriToJulianTabular(year, month, day) = HIJRI_EPOCH + getDaysFromEpochTabular(...)`. -/
def hijriToJulianTabular (year month day : Int) : Except ConvErr Int :=
  (getDaysFromEpochTabular year month day).map (fun n => HIJRI_EPOCH + n)

/-- The year loop of `daysFromEpochToHijri`:
`while (remainingDays >= getTabularYearLength(year)) { remainingDays -= ...; year++ }`.
The caller passes fuel `remainingDays.toNat + 1`, which always exceeds the
iteration count since every iteration removes at least 354 days. -/
def hijriYearWalk : Nat → Int → Int → Int × Int
  | 0, year, remainingDays => (year, remainingDays)
  | fuel + 1, year, remainingDays =>
    if remainingDays ≥ getTabularYearLength year then
      hijriYearWalk fuel (year + 1) (remainingDays - getTabularYearLength year)
    else (year, remainingDays)

/-- The month loop of `daysFromEpochToHijri`:
`while (month <= 12 && remainingDays >= getTabularMonthLength(year, month))`.
The `month <= 12` test precedes the length lookup, so the lookup never sees an
out-of-range month and `getTabularMonthLengthCore` applies.  Fuel 12 covers the
at most 12 iterations (month runs from 1 to at most 13). -/
def hijriMonthWalk (year : Int) : Nat → Int → Int → Int × Int
  | 0, month, remainingDays => (month, remainingDays)
  | fuel + 1, month, remainingDays =>
    if month ≤ 12 ∧ remainingDays ≥ getTabularMonthLengthCore year month then
      hijriMonthWalk year fuel (month + 1) (remainingDays - getTabularMonthLengthCore year month)
    else (month, remainingDays)

/-- `daysFromEpochToHijri(daysFromEpoch)`: strip whole 30-year cycles, then walk
years, then months; the leftover plus 1 is the day of the month. -/
def daysFromEpochToHijri (daysFromEpoch : Int) : HijriD :=
  let completeCycles := daysFromEpoch.fdiv 10631
  let afterCycles := daysFromEpoch - completeCycles * 10631
  let yearState := hijriYearWalk (afterCycles.toNat + 1) (completeCycles * 30 + 1) afterCycles
  let monthState := hijriMonthWalk yearState.1 12 1 yearState.2
  ⟨yearState.1, monthState.1, monthState.2 + 1⟩

/-- `julianToHijriTabular(julianDay)`: throws when the day precedes the Hijri epoch. -/
def julianToHijriTabular (julianDay : Int) : Except ConvErr HijriD :=
  if julianDay - HIJRI_EPOCH < 0 then .error .beforeHijriEpoch
  else .ok (daysFromEpochToHijri (julianDay - HIJRI_EPOCH))

/- ===== Official data table (src/officialData.js, official half) ===== -/

/-- The `officialData` table: Hijri year to its official month lengths.
Year 1448 is incomplete, with only 10 recorded months. -/
def officialData (y : Int) : Option (List Int) :=
  if y = 1423 then some [29, 30, 30, 29, 29, 30, 29, 30, 29, 30, 29, 30]
  else if y = 1424 then some [30, 29, 30, 29, 30, 29, 30, 29, 30, 29, 30, 29]
  else if y = 1425 then some [30, 29, 30, 30, 29, 30, 30, 29, 29, 30, 29, 30]
  else if y = 1426 then some [29, 29, 30, 29, 30, 30, 30, 29, 30, 30, 29, 29]
  else if y = 1427 then some [30, 29, 29, 30, 29, 30, 30, 30, 29, 30, 29, 30]
  else if y = 1428 then some [29, 30, 29, 29, 29, 30, 30, 29, 30, 30, 30, 29]
  else if y = 1429 then some [30, 29, 30, 29, 29, 29, 30, 30, 29, 30, 30, 29]
  else if y = 1430 then some [30, 30, 29, 29, 30, 29, 30, 29, 29, 30, 30, 29]
  else if y = 1431 then some [30, 30, 29, 30, 29, 30, 29, 30, 29, 29, 30, 29]
  else if y = 1432 then some [30, 30, 29, 30, 30, 30, 29, 30, 29, 29, 30, 29]
  else if y = 1433 then some [29, 30, 29, 30, 30, 30, 29, 30, 29, 30, 29, 30]
  else if y = 1434 then some [29, 29, 30, 29, 30, 30, 29, 30, 30, 29, 30, 29]
  else if y = 1435 then some [29, 30, 29, 30, 29, 30, 29, 30, 30, 30, 29, 30]
  else if y = 1436 then some [29, 30, 29, 29, 30, 29, 30, 29, 30, 29, 30, 30]
  else if y = 1437 then some [29, 30, 30, 29, 30, 29, 29, 30, 29, 29, 30, 30]
  else if y = 1438 then some [29, 30, 30, 30, 29, 30, 29, 29, 30, 29, 29, 30]
  else if y = 1439 then some [29, 30, 30, 30, 30, 29, 30, 29, 29, 30, 29, 29]
  else if y = 1440 then some [30, 29, 30, 30, 30, 29, 30, 30, 29, 29, 30, 29]
  else if y = 1441 then some [29, 30, 29, 30, 30, 29, 30, 30, 29, 30, 29, 30]
  else if y = 1442 then some [29, 29, 30, 29, 30, 29, 30, 30, 29, 30, 30, 29]
  else if y = 1443 then some [29, 30, 30, 29, 29, 30, 29, 30, 30, 29, 30, 29]
  else if y = 1444 then some [30, 30, 29, 30, 29, 29, 30, 29, 30, 29, 30, 29]
  else if y = 1445 then some [30, 30, 30, 29, 30, 29, 29, 30, 29, 30, 29, 29]
  else if y = 1446 then some [30, 30, 30, 29, 30, 30, 29, 30, 29, 29, 29, 30]
  else if y = 1447 then some [29, 30, 30, 29, 30, 30, 30, 29, 30, 29, 29, 29]
  else if y = 1448 then some [30, 29, 30, 29, 30, 30, 30, 29, 30, 29]
  else none

/-- The keys of `officialData`, as `Object.keys(officialData)` produces them. -/
def officialYears : List Int :=
  [1423, 1424, 1425, 1426, 1427, 1428, 1429, 1430, 1431, 1432, 1433, 1434,
   1435, 1436, 1437, 1438, 1439, 1440, 1441, 1442, 1443, 1444, 1445, 1446, 1447, 1448]

/-- `getOfficialDataRange()`: min and max of the table's keys, null when empty. -/
def getOfficialDataRange : Option (Int × Int) :=
  match officialYears with
  | [] => none
  | y :: ys => some (ys.foldl min y, ys.foldl max y)

/-- `hasOfficialData(year, month)`; JS call sites that omit the month pass 1 here. -/
def hasOfficialData (year month : Int) : Bool :=
  match officialData year with
  | none => false
  | some arr =>
    if month < 1 || month > 12 then false
    else if month > (arr.length : Int) then false
    else true

/-- `getOfficialMonthLength(year, month)`: null without data, else the table entry. -/
def getOfficialMonthLength (year month : Int) : Option Int :=
  if hasOfficialData year month then some (((officialData year).getD []).getD (month - 1).toNat 0)
  else none

/-- `getOfficialYearLength(year)`: sum of the year's recorded month lengths. -/
def getOfficialYearLength (year : Int) : Option Int :=
  (officialData year).map (fun arr => arr.foldl (fun acc d => acc + d) 0)

/- ===== Utility conversions (src/utils.js) ===== -/

/-- `isGregorianLeapYear(year)`. -/
def isGregorianLeapYear (year : Int) : Bool :=
  (year.tmod 4 = 0 && year.tmod 100 ≠ 0) || year.tmod 400 = 0

/-- The constant `monthDays` table of `getGregorianMonthDays`. -/
def gregorianMonthDaysTable : List Int := [31, 28, 31, 30, 31, 30, 31, 31, 30, 31, 30, 31]

/-- `getGregorianMonthDays(year, month)`. -/
def getGregorianMonthDays (year month : Int) : Int :=
  if month = 2 ∧ isGregorianLeapYear year then 29
  else gregorianMonthDaysTable.getD (month - 1).toNat 0

/-- `isValidGregorianDate(year, month, day)`. -/
def isValidGregorianDate (year month day : Int) : Bool :=
  if year < 1 || month < 1 || month > 12 || day < 1 then false
  else day ≤ getGregorianMonthDays year month

/-- `isValidHijriDate(year, month, day)`: pure bound checks, no month-length data. -/
def isValidHijriDate (year month day : Int) : Bool :=
  if year < 1 || year > 5000 then false
  else if month < 1 || month > 12 then false
  else if day < 1 || day > 30 then false
  else true

/-- The Jalaali break-year table shared by `isJalaaliLeapYear` and `jalaaliToJulian`. -/
def jalBreaks : List Int :=
  [-61, 9, 38, 199, 426, 686, 756, 818, 1111, 1181, 1210, 1635, 2060, 2097,
   2192, 2262, 2324, 2394, 2456, 3178]

/-- The break-table scan loop shared by `isJalaaliLeapYear` and `jalaaliToJulian`:
returns the final `(jp, jump)` pair of the JS loop. -/
def jalBreakScan (jy jp jump : Int) : List Int → Int × Int
  | [] => (jp, jump)
  | b :: rest =>
    let jump2 := b - jp
    if jy < b then (jp, jump2) else jalBreakScan jy b jump2 rest

/-- The leap indicator (`aux` in `isJalaaliLeapYear`, `leap` in `jalaaliToJulian`);
both functions contain this same computation verbatim. -/
def jalLeapAux (jy : Int) : Int :=
  let scanned := jalBreakScan jy (-61) 0 (jalBreaks.drop 1)
  let jp := scanned.1
  let jump := scanned.2
  let n0 := jy - jp
  let n := if jump - n0 < 6 then n0 - jump + ((jump + 4) - (jump + 4).fdiv 33 * 33) else n0
  let aux := if ((n + 1).tmod 33 - 1).fdiv 4 - (n + 1).fdiv 33 = 0 then 1 else 0
  if n.tmod 33 = 0 ∧ aux = 0 then 1 else aux

/-- `isJalaaliLeapYear(jy)`. -/
def isJalaaliLeapYear (jy : Int) : Bool :=
  jalLeapAux jy = 1

/-- `getJalaaliMonthDays(year, month)`. -/
def getJalaaliMonthDays (year month : Int) : Int :=
  if month ≤ 6 then 31
  else if month ≤ 11 then 30
  else if isJalaaliLeapYear year then 30 else 29

/-- `isValidJalaaliDate(year, month, day)`. -/
def isValidJalaaliDate (year month day : Int) : Bool :=
  if year < 1 || month < 1 || month > 12 || day < 1 then false
  else day ≤ getJalaaliMonthDays year month

/-- The expression
`Math.floor((gy-1)*365.25 + Math.floor((gy-1)/400) - Math.floor((gy-1)/100))`
used in `jalaaliToJulian` and `julianToJalaali`; `(gy-1)*365.25` floored is
exactly `(1461*(gy-1)) fdiv 4`, and adding the integer correction terms
commutes with the outer floor. -/
def jalBase (gy : Int) : Int :=
  (1461 * (gy - 1)).fdiv 4 + (gy - 1).fdiv 400 - (gy - 1).fdiv 100

/-- `jalaaliToJulian(jy, jm, jd)`. -/
def jalaaliToJulian (jy jm jd : Int) : Int :=
  let leap := jalLeapAux jy
  let gy := jy + 621
  let march := if leap = 1 then (20 : Int) else 21
  let sal := (intRange 1 (jm - 1).toNat).foldl (fun acc i => acc + getJalaaliMonthDays jy i) 0
  jalBase gy + march + sal + jd + 1948321

/-- The estimate-adjustment loop of `julianToJalaali`:
`while (sal1 > julianDay) { gy--; sal1 = ... }`; the estimate undershoots, so
the loop body rarely runs at all and fuel 1000 is a generous bound. -/
def jalYearAdjust : Nat → Int → Int → Int
  | 0, gy, _ => gy
  | fuel + 1, gy, julianDay =>
    if jalBase gy + 1948321 > julianDay then jalYearAdjust fuel (gy - 1) julianDay
    else gy

/-- The month loop of `julianToJalaali`: `while (jm <= 12) { ... }` with an early
break once the day fits in the month; returns the final `(jm, dayOfYear)`. -/
def jalMonthWalk (jy : Int) : Nat → Int → Int → Int × Int
  | 0, jm, dayOfYear => (jm, dayOfYear)
  | fuel + 1, jm, dayOfYear =>
    if jm ≤ 12 then
      if dayOfYear ≤ getJalaaliMonthDays jy jm then (jm, dayOfYear)
      else jalMonthWalk jy fuel (jm + 1) (dayOfYear - getJalaaliMonthDays jy jm)
    else (jm, dayOfYear)

/-- `julianToJalaali(julianDay)`:
the year estimate `Math.floor((julianDay - 1948321) / 365.25)` is exactly
`(4*(julianDay - 1948321)) fdiv 1461`. -/
def julianToJalaali (julianDay : Int) : JalaaliD :=
  let gy0 := (4 * (julianDay - 1948321)).fdiv 1461
  let gy := jalYearAdjust 1000 gy0 julianDay
  let jy := gy - 621
  let march := if isJalaaliLeapYear jy then (20 : Int) else 21
  let farvardin1 := jalBase gy + march + 1948321
  let dayOfYear := julianDay - farvardin1 + 1
  let monthState := jalMonthWalk jy 12 1 dayOfYear
  ⟨jy, monthState.1, monthState.2⟩

/-- `gregorianToJulian(gy, gm, gd)`: the standard proleptic-Gregorian formula. -/
def gregorianToJulian (gy gm gd : Int) : Int :=
  let a := (14 - gm).fdiv 12
  let y := gy + 4800 - a
  let m := gm + 12 * a - 3
  gd + (153 * m + 2).fdiv 5 + 365 * y + y.fdiv 4 - y.fdiv 100 + y.fdiv 400 - 32045

/-- `julianToGregorian(julianDay)`: exact inverse of the proleptic formula. -/
def julianToGregorian (julianDay : Int) : GregD :=
  let a := julianDay + 32044
  let b := (4 * a + 3).fdiv 146097
  let c := a - (146097 * b).fdiv 4
  let d := (4 * c + 3).fdiv 1461
  let e := c - (1461 * d).fdiv 4
  let m := (5 * e + 2).fdiv 153
  let gd := e - (153 * m + 2).fdiv 5 + 1
  let gm := m + 3 - 12 * m.fdiv 10
  let gy := 100 * b + d - 4800 + m.fdiv 10
  ⟨gy, gm, gd⟩

/-- `getWeekdayNumber(julianDay) = julianDay % 7`. -/
def getWeekdayNumber (julianDay : Int) : Int :=
  julianDay.tmod 7

/-- The `arabicDays` table of `getArabicWeekday` (index 0 = Monday). -/
def arabicDays : List String :=
  ["الاثنين", "الثلاثاء", "الأربعاء", "الخميس", "الجمعة", "السبت", "الأحد"]

/-- The `persianDays` table of `getPersianWeekday`. -/
def persianDays : List String :=
  ["دوشنبه", "سه‌شنبه", "چهارشنبه", "پنج‌شنبه", "جمعه", "شنبه", "یکشنبه"]

/-- The `englishDays` table of `getEnglishWeekday`. -/
def englishDays : List String :=
  ["Monday", "Tuesday", "Wednesday", "Thursday", "Friday", "Saturday", "Sunday"]

/-- The weekday object attached to every conversion result. -/
structure WeekdayInfo where
  ar : String
  fa : String
  en : String
  number : Int
  deriving DecidableEq, Repr

/-- Builds the weekday object from a Julian Day (the four `getXWeekday` calls
made by each facade function). -/
def mkWeekday (julianDay : Int) : WeekdayInfo :=
  ⟨arabicDays.getD (julianDay.tmod 7).toNat "",
   persianDays.getD (julianDay.tmod 7).toNat "",
   englishDays.getD (julianDay.tmod 7).toNat "",
   julianDay.tmod 7⟩

/- ===== Facade (src/utils.js, index.js half) ===== -/

/-- A Hijri-valued conversion result with its data source and weekday. -/
structure HijriResult where
  hy : Int
  hm : Int
  hd : Int
  source : String
  weekday : WeekdayInfo
  deriving DecidableEq, Repr

/-- A Gregorian-valued conversion result with its data source and weekday. -/
structure GregResult where
  gy : Int
  gm : Int
  gd : Int
  source : String
  weekday : WeekdayInfo
  deriving DecidableEq, Repr

/-- The inner month loop of `julianToHijriWithOfficialData`; a null month length
(months beyond an incomplete year) coerces to 0 in the JS comparisons, which
`getD 0` reproduces.  Falling past month 12 reaches the outer `break` and the
function returns null. -/
def oMonthWalk (currentYear : Int) : Nat → Int → Int → Option HijriD
  | 0, _, _ => none
  | fuel + 1, currentMonth, daysFromReference =>
    if currentMonth > 12 then none
    else
      let monthLength := (getOfficialMonthLength currentYear currentMonth).getD 0
      if daysFromReference < monthLength then some ⟨currentYear, currentMonth, daysFromReference + 1⟩
      else oMonthWalk currentYear fuel (currentMonth + 1) (daysFromReference - monthLength)

/-- The year loop of `julianToHijriWithOfficialData`:
`while (currentYear <= range.maxYear)`, exiting with null on a missing year or
on exhausting the table.  Fuel 27 covers the at most 26 iterations from the
table's minimum year 1423 to its maximum 1448. -/
def oYearWalk (maxYear : Int) : Nat → Int → Int → Option HijriD
  | 0, _, _ => none
  | fuel + 1, currentYear, daysFromReference =>
    if currentYear > maxYear then none
    else
      match getOfficialYearLength currentYear with
      | none => none
      | some yearLength =>
        if daysFromReference < yearLength then oMonthWalk currentYear 13 1 daysFromReference
        else oYearWalk maxYear fuel (currentYear + 1) (daysFromReference - yearLength)

/-- `julianToHijriWithOfficialData(julianDay, nearYear)`.  The reference point
`tabular.hijriToJulianTabular(range.minYear, 1, 1)` cannot throw (1423 is inside
1..5000 and the month loop is empty), so it is inlined as its pure value.
Note the body never reads `nearYear`. -/
def julianToHijriWithOfficialData (julianDay : Int) (nearYear : Int) : Option HijriD :=
  match getOfficialDataRange with
  | none => none
  | some (minYear, maxYear) =>
    let referenceJulian := HIJRI_EPOCH + tabularYearStartDays minYear
    let daysFromReference := julianDay - referenceJulian
    if daysFromReference < 0 then none
    else oYearWalk maxYear 27 minYear daysFromReference

/-- The month loop `for (m = 1; m < hm; m++) days += getOfficialMonthLength(hy, m)`
of `hijriToJulianWithOfficialData`; a null length coerces to adding 0. -/
def offMonthPrefix (hy hm : Int) : Int :=
  (intRange 1 (hm - 1).toNat).foldl (fun acc m => acc + (getOfficialMonthLength hy m).getD 0) 0

/-- `hijriToJulianWithOfficialData(hy, hm, hd)`: anchors at the tabular Julian day
of the table's first year, then accumulates official year and month lengths;
throws on a year outside the table range or a missing intervening year. -/
def hijriToJulianWithOfficialData (hy hm hd : Int) : Except ConvErr Int :=
  match getOfficialDataRange with
  | none => .error .noOfficialDataForYear
  | some (minYear, maxYear) =>
    if hy < minYear || hy > maxYear then .error .noOfficialDataForYear
    else
      match hijriToJulianTabular minYear 1 1 with
      | .error e => .error e
      | .ok referenceJulian =>
        if hy = minYear ∧ hm = 1 then .ok (referenceJulian + (hd - 1))
        else if hy = minYear then .ok (referenceJulian + offMonthPrefix hy hm + (hd - 1))
        else
          match (intRange minYear (hy - minYear).toNat).foldlM
              (fun acc y =>
                match getOfficialYearLength y with
                | none => Except.error ConvErr.missingYearData
                | some yearLength => Except.ok (acc + yearLength)) (0 : Int) with
          | .error e => .error e
          | .ok yearsSum => .ok (referenceJulian + yearsSum + offMonthPrefix hy hm + (hd - 1))

/-- The candidate probe loop shared verbatim by `jalaaliToHijri` and
`gregorianToHijri`: offsets -1, 0, +1 around the approximate Hijri year; a
candidate is consulted only when `hasOfficialData(testYear)` holds, and the
first non-null walk result wins. -/
def probeOfficial (julianDay approxHy : Int) : Option HijriD :=
  [approxHy - 1, approxHy, approxHy + 1].findSome? fun testYear =>
    if hasOfficialData testYear 1 then julianToHijriWithOfficialData julianDay testYear
    else none

/-- Packaging of a probe outcome into the result object, as both facades do. -/
def hijriResultOf (julianDay : Int) (approx : HijriD) (probed : Option HijriD) : HijriResult :=
  match probed with
  | some h => ⟨h.hy, h.hm, h.hd, "official", mkWeekday julianDay⟩
  | none => ⟨approx.hy, approx.hm, approx.hd, "tabular", mkWeekday julianDay⟩

/-- The tail shared verbatim by `jalaaliToHijri` and `gregorianToHijri` once the
input's Julian Day is known: tabular estimate, windowed official probe, result. -/
def toHijriVia (julianDay : Int) : Except ConvErr HijriResult :=
  (julianToHijriTabular julianDay).map fun approx =>
    hijriResultOf julianDay approx (probeOfficial julianDay approx.hy)

/-- `jalaaliToHijri(jy, jm, jd)`. -/
def jalaaliToHijri (jy jm jd : Int) : Except ConvErr HijriResult :=
  if !isValidJalaaliDate jy jm jd then .error .invalidDate
  else toHijriVia (jalaaliToJulian jy jm jd)

/-- `gregorianToHijri(gy, gm, gd)`. -/
def gregorianToHijri (gy gm gd : Int) : Except ConvErr HijriResult :=
  if !isValidGregorianDate gy gm gd then .error .invalidDate
  else toHijriVia (gregorianToJulian gy gm gd)

/-- `hijriToGregorian(hy, hm, hd)`: official data when `hasOfficialData(hy, hm)`,
else the tabular codec. -/
def hijriToGregorian (hy hm hd : Int) : Except ConvErr GregResult :=
  if !isValidHijriDate hy hm hd then .error .invalidDate
  else if hasOfficialData hy hm then
    (hijriToJulianWithOfficialData hy hm hd).map fun julianDay =>
      let g := julianToGregorian julianDay
      ⟨g.gy, g.gm, g.gd, "official", mkWeekday julianDay⟩
  else
    (hijriToJulianTabular hy hm hd).map fun julianDay =>
      let g := julianToGregorian julianDay
      ⟨g.gy, g.gm, g.gd, "tabular", mkWeekday julianDay⟩

/- ===== Spec-described variant of the windowed probe (for the refinement claim) ===== -/

/-- Modelled from the spec's wording of the boundary-reconciliation policy: the
resolver is probed for approximateYear - 1, approximateYear, approximateYear + 1
in that order, and the first year for which the official JDN-to-Hijri walk
returns a non-null result wins, with no other gating. -/
def probeOfficialSpec (julianDay approxHy : Int) : Option HijriD :=
  [approxHy - 1, approxHy, approxHy + 1].findSome? fun testYear =>
    julianToHijriWithOfficialData julianDay testYear

/-- Conversion tail with the spec-worded probe in place of the code's probe. -/
def toHijriViaSpec (julianDay : Int) : Except ConvErr HijriResult :=
  (julianToHijriTabular julianDay).map fun approx =>
    hijriResultOf julianDay approx (probeOfficialSpec julianDay approx.hy)

/-- `jalaaliToHijri` as the spec describes it (probe per `probeOfficialSpec`). -/
def jalaaliToHijriSpec (jy jm jd : Int) : Except ConvErr HijriResult :=
  if !isValidJalaaliDate jy jm jd then .error .invalidDate
  else toHijriViaSpec (jalaaliToJulian jy jm jd)

/-- `gregorianToHijri` as the spec describes it (probe per `probeOfficialSpec`). -/
def gregorianToHijriSpec (gy gm gd : Int) : Except ConvErr HijriResult :=
  if !isValidGregorianDate gy gm gd then .error .invalidDate
  else toHijriViaSpec (gregorianToJulian gy gm gd)

/- ===== Proof-side auxiliary definitions ===== -/

/-- Sum of tabular year lengths for the `n` consecutive years starting at `y`;
the invariant shape of the year loop of `daysFromEpochToHijri`. -/
def sumLFrom (y : Int) : Nat → Int
  | 0 => 0
  | n + 1 => getTabularYearLength y + sumLFrom (y + 1) n

/-- Sum of the official year lengths from year `cy` through the table's last
year 1448; the amount of walkable data left to the year loop of
`julianToHijriWithOfficialData`. -/
def offSumFrom (cy : Int) : Int :=
  (intRange cy (1449 - cy).toNat).foldl (fun acc z => acc + (getOfficialYearLength z).getD 0) 0

/- ===== Helper lemmas ===== -/

/-- The tabular month-sum loop can fail only with the invalid-month error. -/
theorem tabMonthSumGo_ne_yearOutOfRange :
    ∀ (fuel : Nat) (year month m acc : Int),
      tabMonthSumGo year month fuel m acc ≠ .error .yearOutOfRange := by
  intro fuel
  induction fuel with
  | zero => intro year month m acc; simp [tabMonthSumGo]
  | succ f ih =>
    intro year month m acc
    unfold tabMonthSumGo getTabularMonthLengthE
    split
    · split
      · next e heq =>
        split_ifs at heq <;> simp_all
        subst heq
        decide
      · exact ih year month (m + 1) _
    · simp

/- ===== Claim theorems ===== -/

/-- C10: isValidHijriDate(year, month, day) returns true exactly when
1 ≤ year ≤ 5000, 1 ≤ month ≤ 12 and 1 ≤ day ≤ 30; it consults no official or
tabular month lengths, so day 30 of the officially 29-day month 1446/7 is
accepted and flows into hijriToGregorian without error. -/
theorem c10_isValidHijriDate_pure_bounds :
    (∀ year month day : Int, isValidHijriDate year month day = true ↔
      (1 ≤ year ∧ year ≤ 5000 ∧ 1 ≤ month ∧ month ≤ 12 ∧ 1 ≤ day ∧ day ≤ 30)) ∧
    isValidHijriDate 1446 7 30 = true ∧
    getOfficialMonthLength 1446 7 = some 29 ∧
    (hijriToGregorian 1446 7 30).isOk = true := by
  refine ⟨?_, by decide, by decide, by decide⟩
  intro year month day
  unfold isValidHijriDate
  split_ifs <;> simp_all <;> omega

/-- C7: for a year stored in the table with fewer than 12 months, every month
index past the stored length (up to 12) reports missing data: hasOfficialData
is false and getOfficialMonthLength is null; no exception path exists. -/
theorem c7_short_year_reports_no_data :
    ∀ (year : Int) (arr : List Int) (month : Int),
      officialData year = some arr → arr.length < 12 → (arr.length : Int) < month →
      month ≤ 12 →
      hasOfficialData year month = false ∧ getOfficialMonthLength year month = none := by
  intro year arr month harr hlen hpast hle
  have h1 : hasOfficialData year month = false := by
    unfold hasOfficialData
    rw [harr]
    split_ifs <;> simp_all <;> omega
  refine ⟨h1, ?_⟩
  unfold getOfficialMonthLength
  rw [h1]
  simp

/-- Witness for C7: year 1448 holds 10 months; month 11 reports no data. -/
theorem c7_short_year_reports_no_data_witness :
    officialData 1448 = some [30, 29, 30, 29, 30, 30, 30, 29, 30, 29] ∧
    hasOfficialData 1448 11 = false ∧ getOfficialMonthLength 1448 11 = none :=
  ⟨by decide,
   (c7_short_year_reports_no_data 1448 [30, 29, 30, 29, 30, 30, 30, 29, 30, 29] 11
     (by decide) (by decide) (by decide) (by decide)).1,
   (c7_short_year_reports_no_data 1448 [30, 29, 30, 29, 30, 30, 30, 29, 30, 29] 11
     (by decide) (by decide) (by decide) (by decide)).2⟩

/-- C8: julianToHijriWithOfficialData never reads its nearYear argument, so any
two candidate years give identical results, and the facades' three-candidate
probe collapses to one walk call gated on any candidate year having data. -/
theorem c8_walk_ignores_near_year :
    (∀ julianDay y1 y2 : Int,
      julianToHijriWithOfficialData julianDay y1 = julianToHijriWithOfficialData julianDay y2) ∧
    (∀ julianDay approxHy : Int,
      probeOfficial julianDay approxHy =
        if hasOfficialData (approxHy - 1) 1 || hasOfficialData approxHy 1 ||
            hasOfficialData (approxHy + 1) 1
        then julianToHijriWithOfficialData julianDay approxHy
        else none) := by
  constructor
  · intro julianDay y1 y2
    rfl
  · intro julianDay approxHy
    have hc : ∀ y : Int, julianToHijriWithOfficialData julianDay y =
        julianToHijriWithOfficialData julianDay approxHy := fun _ => rfl
    unfold probeOfficial
    simp only [List.findSome?_cons, List.findSome?_nil, hc]
    cases hw : julianToHijriWithOfficialData julianDay approxHy <;>
      by_cases h1 : hasOfficialData (approxHy - 1) 1 <;>
      by_cases h2 : hasOfficialData approxHy 1 <;>
      by_cases h3 : hasOfficialData (approxHy + 1) 1 <;>
      simp [h1, h2, h3, hw]

/-- C9: every valid Gregorian date whose Julian Day precedes the Hijri epoch
constant 1948440 passes validation but makes gregorianToHijri throw the
before-epoch error instead of returning a result. -/
theorem c9_pre_epoch_gregorian_throws : ∀ gy gm gd : Int,
    isValidGregorianDate gy gm gd = true → gregorianToJulian gy gm gd < HIJRI_EPOCH →
    gregorianToHijri gy gm gd = .error .beforeHijriEpoch := by
  intro gy gm gd hval hlt
  unfold gregorianToHijri toHijriVia julianToHijriTabular
  rw [hval]
  simp only [Bool.not_true, Bool.false_eq_true, if_false]
  rw [if_pos (by omega)]
  rfl

/-- Witness for C9 at Gregorian 1-01-01 (Julian Day 1721426, before the epoch). -/
theorem c9_pre_epoch_gregorian_throws_witness :
    isValidGregorianDate 1 1 1 = true ∧ gregorianToJulian 1 1 1 < HIJRI_EPOCH ∧
    gregorianToHijri 1 1 1 = .error .beforeHijriEpoch :=
  ⟨by decide, by decide, c9_pre_epoch_gregorian_throws 1 1 1 (by decide) (by decide)⟩

/-- C6: the tabular day-count conversion getDaysFromEpochTabular throws the
year-out-of-range error for every year outside 1..5000, and never that error
for a year inside 1..5000. -/
theorem c6_tabular_year_domain :
    (∀ year month day : Int, (year < 1 ∨ 5000 < year) →
      getDaysFromEpochTabular year month day = .error .yearOutOfRange) ∧
    (∀ year month day : Int, 1 ≤ year → year ≤ 5000 →
      getDaysFromEpochTabular year month day ≠ .error .yearOutOfRange) := by
  constructor
  · intro year month day h
    unfold getDaysFromEpochTabular
    rw [if_pos (by simp; omega)]
  · intro year month day h1 h2
    unfold getDaysFromEpochTabular
    rw [if_neg (by simp; omega)]
    have hms := tabMonthSumGo_ne_yearOutOfRange 13 year month 1 0
    unfold tabMonthSum
    cases h : tabMonthSumGo year month 13 1 0 with
    | error e =>
      rw [h] at hms
      simp_all
    | ok s => simp

/-- Witness for C6: year 5001 is rejected with the range error; year 10 is not. -/
theorem c6_tabular_year_domain_witness :
    getDaysFromEpochTabular 5001 1 1 = .error .yearOutOfRange ∧
    getDaysFromEpochTabular 10 1 1 ≠ .error .yearOutOfRange :=
  ⟨c6_tabular_year_domain.1 5001 1 1 (by decide),
   c6_tabular_year_domain.2 10 1 1 (by decide) (by decide)⟩

/-- C2: the Jalaali codec does not round-trip: julianToJalaali applied to
jalaaliToJulian(1403, 9, 15) evaluates to the invalid date (1402, 13, 262)
instead of recovering (1403, 9, 15); consequently jalaaliToHijri(1403, 9, 15)
yields tabular (2086, 7, 18) where the library's own documentation records
official (1445, 6, 2). -/
theorem c2_jalaali_roundtrip_fails :
    julianToJalaali (jalaaliToJulian 1403 9 15) = ⟨1402, 13, 262⟩ ∧
    julianToJalaali (jalaaliToJulian 1403 9 15) ≠ ⟨1403, 9, 15⟩ ∧
    (jalaaliToHijri 1403 9 15).toOption.map (fun r => (r.hy, r.hm, r.hd, r.source)) =
      some (2086, 7, 18, "tabular") := by
  refine ⟨by decide, by decide, by decide⟩

/-- C3 counterexample: gregorianToHijri(2024, 12, 5) reports source "official",
not "tabular" as claimed. -/
theorem c3_counterexample_source_official :
    (gregorianToHijri 2024 12 5).toOption.map (fun r => r.source) = some "official" := by
  decide

/-- C3 amended: gregorianToHijri(2024, 12, 5) lies inside the table's
Gregorian-equivalent coverage and returns Hijri (1446, 6, 4), source "official". -/
theorem c3_amended_inside_official_coverage :
    (gregorianToHijri 2024 12 5).toOption.map (fun r => (r.hy, r.hm, r.hd, r.source)) =
      some (1446, 6, 4, "official") := by
  decide

/-- C5: hijriToGregorian(1446, 6, 3) resolves through the official tier to
2024-12-04, and gregorianToHijri on that result also resolves through the
official tier and recovers (1446, 6, 3). -/
theorem c5_hijri_gregorian_roundtrip :
    (hijriToGregorian 1446 6 3).toOption.map (fun r => (r.gy, r.gm, r.gd, r.source)) =
      some (2024, 12, 4, "official") ∧
    (gregorianToHijri 2024 12 4).toOption.map (fun r => (r.hy, r.hm, r.hd, r.source)) =
      some (1446, 6, 3, "official") := by
  constructor <;> decide

/- ===== C4 machinery ===== -/

/-- Membership in intRange gives the expected bounds. -/
theorem intRange_mem : ∀ (n : Nat) (s z : Int), z ∈ intRange s n → s ≤ z ∧ z < s + n := by
  intro n
  induction n with
  | zero => intro s z hz; simp [intRange] at hz
  | succ k ih =>
    intro s z hz
    simp only [intRange, List.mem_cons] at hz
    rcases hz with rfl | hz
    · push_cast; omega
    · have := ih (s + 1) z hz
      push_cast
      omega

/-- Years outside 1423 through 1448 have no table entry. -/
theorem officialData_eq_none_of_outside :
    ∀ y : Int, (y < 1423 ∨ 1448 < y) → officialData y = none := by
  intro y h
  unfold officialData
  iterate 26 rw [if_neg (by omega)]

/-- Years carrying table data are exactly 1423 through 1448 (one direction). -/
theorem officialData_isSome_range :
    ∀ y : Int, (officialData y).isSome = true → 1423 ≤ y ∧ y ≤ 1448 := by
  intro y h
  by_contra hc
  rw [officialData_eq_none_of_outside y (by omega)] at h
  simp at h

/-- hasOfficialData presupposes the year is in the table. -/
theorem hasOfficialData_isSome :
    ∀ y m : Int, hasOfficialData y m = true → (officialData y).isSome = true := by
  intro y m h
  unfold hasOfficialData at h
  cases ho : officialData y with
  | none => rw [ho] at h; simp at h
  | some arr => simp [ho]

/-- Every year from 1423 through 1448 has an official year length. -/
theorem officialYearLength_isSome_of_range :
    ∀ z : Int, 1423 ≤ z → z ≤ 1448 → (getOfficialYearLength z).isSome = true := by
  intro z h1 h2
  interval_cases z <;> decide

/-- The table's computed range is years 1423 through 1448. -/
theorem getOfficialDataRange_eq : getOfficialDataRange = some (1423, 1448) := by decide

/-- The tabular anchor of the official resolver: Julian Day of Hijri 1423-01-01. -/
theorem hijriToJulianTabular_ref : hijriToJulianTabular 1423 1 1 = .ok 2452349 := by rfl

/-- The official year-accumulation fold succeeds when every year it visits has data. -/
theorem offYearsFoldlM_ok : ∀ (l : List Int) (acc : Int),
    (∀ z ∈ l, (getOfficialYearLength z).isSome = true) →
    ∃ s, l.foldlM (fun acc y =>
        match getOfficialYearLength y with
        | none => Except.error ConvErr.missingYearData
        | some yearLength => Except.ok (acc + yearLength)) acc = Except.ok s := by
  intro l
  induction l with
  | nil => intro acc _; exact ⟨acc, rfl⟩
  | cons z zs ih =>
    intro acc hall
    obtain ⟨yl, hyl⟩ := Option.isSome_iff_exists.mp (hall z (by simp))
    obtain ⟨s, hs⟩ := ih (acc + yl) (fun w hw => hall w (by simp [hw]))
    refine ⟨s, ?_⟩
    rw [List.foldlM_cons, hyl]
    simpa using hs

/-- hijriToJulianWithOfficialData succeeds for every year inside the table range. -/
theorem hijriToJulianWithOfficialData_ok :
    ∀ (hy hm hd : Int), 1423 ≤ hy → hy ≤ 1448 →
    ∃ v, hijriToJulianWithOfficialData hy hm hd = .ok v := by
  intro hy hm hd h1 h2
  unfold hijriToJulianWithOfficialData
  simp only [getOfficialDataRange_eq, hijriToJulianTabular_ref]
  rw [if_neg (by simp; omega)]
  by_cases hmin : hy = 1423
  · by_cases hm1 : hm = 1
    · rw [if_pos ⟨hmin, hm1⟩]
      exact ⟨_, rfl⟩
    · rw [if_neg (by tauto), if_pos hmin]
      exact ⟨_, rfl⟩
  · rw [if_neg (by tauto), if_neg hmin]
    have hall : ∀ z ∈ intRange 1423 (hy - 1423).toNat, (getOfficialYearLength z).isSome = true := by
      intro z hz
      have hb := intRange_mem _ _ _ hz
      have hcast : ((hy - 1423).toNat : Int) = hy - 1423 := Int.toNat_of_nonneg (by omega)
      exact officialYearLength_isSome_of_range z (by omega) (by omega)
    obtain ⟨s, hs⟩ := offYearsFoldlM_ok _ 0 hall
    rw [hs]
    exact ⟨_, rfl⟩

/-- C4: whenever hasOfficialData(y, m) holds and (y, m, 1) is a valid Hijri date,
hijriToGregorian(y, m, 1) resolves through the official tier. -/
theorem c4_official_data_forces_official_source :
    ∀ y m : Int, hasOfficialData y m = true → isValidHijriDate y m 1 = true →
    (hijriToGregorian y m 1).toOption.map (fun r => r.source) = some "official" := by
  intro y m hod hval
  have hrange := officialData_isSome_range y (hasOfficialData_isSome y m hod)
  obtain ⟨v, hv⟩ := hijriToJulianWithOfficialData_ok y m 1 hrange.1 hrange.2
  unfold hijriToGregorian
  rw [hval]
  simp only [Bool.not_true, Bool.false_eq_true, if_false]
  rw [if_pos hod, hv]
  rfl

/-- Witness for C4 at Hijri year 1446, month 6. -/
theorem c4_official_data_forces_official_source_witness :
    hasOfficialData 1446 6 = true ∧ isValidHijriDate 1446 6 1 = true ∧
    (hijriToGregorian 1446 6 1).toOption.map (fun r => r.source) = some "official" :=
  ⟨by decide, by decide,
   c4_official_data_forces_official_source 1446 6 (by decide) (by decide)⟩

/- ===== C1 machinery, part A: characterizing the tabular inverse ===== -/

/-- Every tabular year has 354 or 355 days. -/
theorem getTabularYearLength_bounds :
    ∀ y : Int, 354 ≤ getTabularYearLength y ∧ getTabularYearLength y ≤ 355 := by
  intro y
  unfold getTabularYearLength
  split <;> omega

/-- Tabular year lengths repeat with the 30-year cycle. -/
theorem getTabularYearLength_periodic : ∀ (c w : Int), 0 ≤ c → 1 ≤ w →
    getTabularYearLength (30 * c + w) = getTabularYearLength w := by
  intro c w hc hw
  unfold getTabularYearLength isTabularLeapYear
  have h : (30 * c + w - 1).tmod 30 = (w - 1).tmod 30 := by
    rw [Int.tmod_eq_emod (by omega) (by omega), Int.tmod_eq_emod (by omega) (by omega)]
    omega
  rw [h]

/-- Lower bound for a run of tabular year lengths. -/
theorem sumLFrom_lower : ∀ (n : Nat) (y : Int), 354 * n ≤ sumLFrom y n := by
  intro n
  induction n with
  | zero => intro y; simp [sumLFrom]
  | succ k ih =>
    intro y
    have h1 := ih (y + 1)
    have h2 := getTabularYearLength_bounds y
    have h3 : sumLFrom y (k + 1) = getTabularYearLength y + sumLFrom (y + 1) k := rfl
    rw [h3]
    push_cast
    push_cast at h1
    omega

/-- Appending one more year to a run of tabular year lengths. -/
theorem sumLFrom_snoc : ∀ (n : Nat) (y : Int),
    sumLFrom y (n + 1) = sumLFrom y n + getTabularYearLength (y + n) := by
  intro n
  induction n with
  | zero =>
    intro y
    simp [sumLFrom]
  | succ k ih =>
    intro y
    have h1 : sumLFrom y (k + 1 + 1) = getTabularYearLength y + sumLFrom (y + 1) (k + 1) := rfl
    have h2 : sumLFrom y (k + 1) = getTabularYearLength y + sumLFrom (y + 1) k := rfl
    rw [h1, ih (y + 1), h2]
    have harg : y + 1 + (k : Int) = y + ((k : Int) + 1) := by ring
    rw [harg]
    push_cast
    ring

/-- A run starting at the first year of any cycle equals the run from year 1. -/
theorem sumLFrom_shift : ∀ (n : Nat) (c : Int), 0 ≤ c →
    sumLFrom (30 * c + 1) n = sumLFrom 1 n := by
  intro n
  induction n with
  | zero => intro c _; rfl
  | succ k ih =>
    intro c hc
    rw [sumLFrom_snoc k (30 * c + 1), sumLFrom_snoc k 1, ih c hc]
    have harg : 30 * c + 1 + (k : Int) = 30 * c + (1 + (k : Int)) := by ring
    rw [harg, getTabularYearLength_periodic c (1 + (k : Int)) hc (by omega)]

/-- Shift lemma for the tabular year-length fold. -/
theorem foldl_tabL_shift : ∀ (l : List Int) (s : Int),
    l.foldl (fun acc y => acc + getTabularYearLength y) s =
    s + l.foldl (fun acc y => acc + getTabularYearLength y) 0 := by
  intro l
  induction l with
  | nil => intro s; simp
  | cons z zs ih =>
    intro s
    simp only [List.foldl_cons]
    rw [ih (s + getTabularYearLength z), ih (0 + getTabularYearLength z)]
    ring

/-- intRange grows by one element at the top end. -/
theorem intRange_snoc : ∀ (n : Nat) (s : Int),
    intRange s (n + 1) = intRange s n ++ [s + n] := by
  intro n
  induction n with
  | zero => intro s; simp [intRange]
  | succ k ih =>
    intro s
    have h1 : intRange s (k + 1 + 1) = s :: intRange (s + 1) (k + 1) := rfl
    have h2 : intRange s (k + 1) = s :: intRange (s + 1) k := rfl
    rw [h1, ih (s + 1), h2]
    have harg : s + 1 + (k : Int) = s + ((k : Int) + 1) := by ring
    push_cast
    rw [harg]
    simp

/-- Appending one more year to the partial-cycle accumulation loop. -/
theorem inCycleYearDays_snoc : ∀ j : Int, 0 ≤ j →
    inCycleYearDays (j + 1) = inCycleYearDays j + getTabularYearLength (j + 1) := by
  intro j hj
  unfold inCycleYearDays
  have hn : (j + 1).toNat = j.toNat + 1 := by omega
  rw [hn, intRange_snoc]
  rw [List.foldl_append]
  simp only [List.foldl_cons, List.foldl_nil]
  have hcast : ((j.toNat : Int)) = j := Int.toNat_of_nonneg hj
  rw [hcast]
  have harg : (1 : Int) + j = j + 1 := by ring
  rw [harg]

/-- The partial-cycle loop sum equals the run of year lengths from year 1. -/
theorem inCycleYearDays_eq_sumLFrom : ∀ n : Nat,
    inCycleYearDays (n : Int) = sumLFrom 1 n := by
  intro n
  induction n with
  | zero => rfl
  | succ k ih =>
    have hcast : ((k + 1 : Nat) : Int) = (k : Int) + 1 := by push_cast; ring
    rw [hcast, inCycleYearDays_snoc (k : Int) (by positivity), ih, sumLFrom_snoc]
    have harg : (1 : Int) + (k : Int) = (k : Int) + 1 := by ring
    rw [harg]

/-- One-year step of the tabular year-start day count. -/
theorem tabularYearStartDays_step : ∀ y : Int, 1 ≤ y →
    tabularYearStartDays (y + 1) = tabularYearStartDays y + getTabularYearLength y := by
  intro y hy
  unfold tabularYearStartDays
  have hs : y + 1 - 1 = y := by ring
  rw [hs]
  rw [Int.fdiv_eq_ediv _ (by norm_num), Int.fdiv_eq_ediv _ (by norm_num)]
  rw [Int.tmod_eq_emod (by omega) (by norm_num), Int.tmod_eq_emod (by omega) (by norm_num)]
  have hq0 : 0 ≤ (y - 1) / 30 := by omega
  by_cases hcase : (y - 1) % 30 ≤ 28
  · have hdiv : y / 30 = (y - 1) / 30 := by omega
    have hmod : y % 30 = (y - 1) % 30 + 1 := by omega
    rw [hdiv, hmod]
    rw [inCycleYearDays_snoc _ (by omega)]
    have hyform : y = 30 * ((y - 1) / 30) + ((y - 1) % 30 + 1) := by omega
    have hL : getTabularYearLength y = getTabularYearLength ((y - 1) % 30 + 1) := by
      conv_lhs => rw [hyform]
      exact getTabularYearLength_periodic _ _ hq0 (by omega)
    rw [hL]
    ring
  · have hm29 : (y - 1) % 30 = 29 := by omega
    have hdiv : y / 30 = (y - 1) / 30 + 1 := by omega
    have hmod : y % 30 = 0 := by omega
    rw [hdiv, hmod, hm29]
    have hyform : y = 30 * ((y - 1) / 30) + 30 := by omega
    have hL : getTabularYearLength y = getTabularYearLength 30 := by
      conv_lhs => rw [hyform]
      exact getTabularYearLength_periodic _ _ hq0 (by omega)
    rw [hL]
    have h0 : inCycleYearDays 0 = 0 := rfl
    have h29 : inCycleYearDays 29 = 10277 := by decide
    have h30 : getTabularYearLength 30 = 354 := by decide
    rw [h0, h29, h30]
    ring

/-- The year loop of daysFromEpochToHijri lands in the unique year whose
cumulative run of year lengths brackets the remaining days. -/
theorem hijriYearWalk_spec : ∀ (fuel : Nat) (y r : Int), 0 ≤ r → r < 354 * fuel →
    ∃ (n : Nat) (t : Int), hijriYearWalk fuel y r = (y + n, t) ∧ 0 ≤ t ∧
      t < getTabularYearLength (y + n) ∧ r = sumLFrom y n + t := by
  intro fuel
  induction fuel with
  | zero =>
    intro y r h0 hlt
    push_cast at hlt
    omega
  | succ f ih =>
    intro y r h0 hlt
    unfold hijriYearWalk
    split
    · next hge =>
      have hLb := getTabularYearLength_bounds y
      obtain ⟨n, t, heq, ht0, htL, hsum⟩ :=
        ih (y + 1) (r - getTabularYearLength y) (by omega)
          (by push_cast at hlt ⊢; omega)
      have harg : y + 1 + (n : Int) = y + ((n + 1 : Nat) : Int) := by push_cast; ring
      refine ⟨n + 1, t, ?_, ht0, ?_, ?_⟩
      · rw [heq, harg]
      · rw [← harg]; exact htL
      · have hunf : sumLFrom y (n + 1) = getTabularYearLength y + sumLFrom (y + 1) n := rfl
        rw [hunf]
        omega
    · next hless =>
      refine ⟨0, r, by simp, h0, ?_, by simp [sumLFrom]⟩
      simpa using hless

/-- The year picked by daysFromEpochToHijri is at least 1 and its tabular
year-start day count brackets the input day count. -/
theorem daysFromEpochToHijri_year_char : ∀ d : Int, 0 ≤ d →
    1 ≤ (daysFromEpochToHijri d).hy ∧
    tabularYearStartDays (daysFromEpochToHijri d).hy ≤ d ∧
    d < tabularYearStartDays (daysFromEpochToHijri d).hy +
        getTabularYearLength (daysFromEpochToHijri d).hy := by
  intro d hd
  have hdiv : d.fdiv 10631 = d / 10631 := Int.fdiv_eq_ediv d (by norm_num)
  have hy_eq : (daysFromEpochToHijri d).hy =
      (hijriYearWalk ((d - d.fdiv 10631 * 10631).toNat + 1) (d.fdiv 10631 * 30 + 1)
        (d - d.fdiv 10631 * 10631)).1 := rfl
  rw [hy_eq, hdiv]
  have hc0 : 0 ≤ d / 10631 := by omega
  have hr0 : 0 ≤ d - d / 10631 * 10631 := by omega
  have hrlt : d - d / 10631 * 10631 < 10631 := by omega
  obtain ⟨n, t, heq, ht0, htL, hsum⟩ :=
    hijriYearWalk_spec ((d - d / 10631 * 10631).toNat + 1) (d / 10631 * 30 + 1)
      (d - d / 10631 * 10631) hr0
      (by have := Int.toNat_of_nonneg hr0; push_cast; omega)
  rw [heq]
  have hshift : sumLFrom (d / 10631 * 30 + 1) n = sumLFrom 1 n := by
    have harg : d / 10631 * 30 + 1 = 30 * (d / 10631) + 1 := by ring
    rw [harg]
    exact sumLFrom_shift n (d / 10631) hc0
  have hlow := sumLFrom_lower n (d / 10631 * 30 + 1)
  have hn30 : (n : Int) ≤ 30 := by push_cast at hlow ⊢; omega
  have hne30 : (n : Int) ≠ 30 := by
    intro h30
    have hn' : n = 30 := by omega
    subst hn'
    rw [hshift] at hsum
    have : sumLFrom 1 30 = 10631 := by decide
    omega
  have hn29 : (n : Int) ≤ 29 := by omega
  have hcum : tabularYearStartDays (d / 10631 * 30 + 1 + n) =
      d / 10631 * 10631 + sumLFrom 1 n := by
    unfold tabularYearStartDays
    have hs1 : d / 10631 * 30 + 1 + (n : Int) - 1 = 30 * (d / 10631) + n := by ring
    rw [hs1]
    rw [Int.fdiv_eq_ediv _ (by norm_num), Int.tmod_eq_emod (by positivity) (by norm_num)]
    have hd30 : (30 * (d / 10631) + (n : Int)) / 30 = d / 10631 := by omega
    have hm30 : (30 * (d / 10631) + (n : Int)) % 30 = (n : Int) := by omega
    rw [hd30, hm30]
    have : inCycleYearDays (n : Int) = sumLFrom 1 n := inCycleYearDays_eq_sumLFrom n
    rw [this]
  constructor
  · simp only []
    push_cast
    omega
  constructor
  · simp only []
    rw [hcum]
    rw [hshift] at hsum
    omega
  · simp only []
    rw [hcum]
    rw [hshift] at hsum
    omega

/-- Monotonicity of the tabular year-start day count. -/
theorem tabularYearStartDays_mono : ∀ (y y2 : Int), 1 ≤ y → y ≤ y2 →
    tabularYearStartDays y ≤ tabularYearStartDays y2 := by
  intro y y2 hy hle
  refine @Int.le_induction (fun z => tabularYearStartDays y ≤ tabularYearStartDays z) y
    (le_refl _) ?_ y2 hle
  intro n hn ih
  have hstep := tabularYearStartDays_step n (by omega)
  have hLb := getTabularYearLength_bounds n
  omega

/-- Any day count inside the official table's coverage has its tabular
approximate year inside the table's year range 1423..1448. -/
theorem approx_hy_in_table : ∀ d : Int, 503909 ≤ d → d < 513063 →
    1423 ≤ (daysFromEpochToHijri d).hy ∧ (daysFromEpochToHijri d).hy ≤ 1448 := by
  intro d h1 h2
  obtain ⟨hy1, hcle, hclt⟩ := daysFromEpochToHijri_year_char d (by omega)
  constructor
  · by_contra hc
    push_neg at hc
    have hstep := tabularYearStartDays_step (daysFromEpochToHijri d).hy hy1
    have hm := tabularYearStartDays_mono ((daysFromEpochToHijri d).hy + 1) 1423
      (by omega) (by omega)
    have hval : tabularYearStartDays 1423 = 503909 := by decide
    omega
  · by_contra hc
    push_neg at hc
    have hm := tabularYearStartDays_mono 1449 (daysFromEpochToHijri d).hy
      (by omega) (by omega)
    have hval : tabularYearStartDays 1449 = 513123 := by decide
    omega

/- ===== C1 machinery, part B: the official walk's coverage window ===== -/

/-- An official year length read through getD is never negative. -/
theorem officialYearLength_getD_nonneg : ∀ z : Int, 0 ≤ (getOfficialYearLength z).getD 0 := by
  intro z
  cases ho : officialData z with
  | none => simp [getOfficialYearLength, ho]
  | some arr =>
    obtain ⟨h1, h2⟩ := officialData_isSome_range z (by simp [ho])
    interval_cases z <;> decide

/-- Shift lemma for the official year-length fold. -/
theorem foldl_offL_shift : ∀ (l : List Int) (s : Int),
    l.foldl (fun acc z => acc + (getOfficialYearLength z).getD 0) s =
    s + l.foldl (fun acc z => acc + (getOfficialYearLength z).getD 0) 0 := by
  intro l
  induction l with
  | nil => intro s; simp
  | cons z zs ih =>
    intro s
    simp only [List.foldl_cons]
    rw [ih (s + (getOfficialYearLength z).getD 0), ih (0 + (getOfficialYearLength z).getD 0)]
    ring

/-- The remaining official data is never negative. -/
theorem offSumFrom_nonneg : ∀ cy : Int, 0 ≤ offSumFrom cy := by
  intro cy
  unfold offSumFrom
  generalize intRange cy (1449 - cy).toNat = l
  induction l with
  | nil => simp
  | cons z zs ih =>
    simp only [List.foldl_cons]
    rw [foldl_offL_shift]
    have := officialYearLength_getD_nonneg z
    omega

/-- Unfolding one year of the remaining official data. -/
theorem offSumFrom_step : ∀ cy : Int, cy ≤ 1448 →
    offSumFrom cy = (getOfficialYearLength cy).getD 0 + offSumFrom (cy + 1) := by
  intro cy h
  unfold offSumFrom
  have hn : (1449 - cy).toNat = (1449 - (cy + 1)).toNat + 1 := by omega
  rw [hn]
  have hcons : intRange cy ((1449 - (cy + 1)).toNat + 1) =
      cy :: intRange (cy + 1) (1449 - (cy + 1)).toNat := rfl
  rw [hcons]
  simp only [List.foldl_cons]
  rw [foldl_offL_shift]
  ring

/-- Once the remaining days meet or exceed all remaining official data, the
official year walk returns null. -/
theorem oYearWalk_none_of_exhausted : ∀ (fuel : Nat) (cy r : Int),
    offSumFrom cy ≤ r → oYearWalk 1448 fuel cy r = none := by
  intro fuel
  induction fuel with
  | zero => intro cy r _; rfl
  | succ f ih =>
    intro cy r h
    unfold oYearWalk
    split
    · rfl
    · next hle =>
      cases hyl : getOfficialYearLength cy with
      | none => simp
      | some yl =>
        simp only []
        have hstep := offSumFrom_step cy (by omega)
        rw [hyl] at hstep
        simp only [Option.getD_some] at hstep
        have hnn := offSumFrom_nonneg (cy + 1)
        rw [if_neg (by omega)]
        exact ih (cy + 1) (r - yl) (by omega)

/-- A successful official walk pins the Julian Day inside the table's
coverage window of 9154 days starting at the tabular anchor 2452349. -/
theorem walk_some_in_window : ∀ (julianDay nearYear : Int) (h : HijriD),
    julianToHijriWithOfficialData julianDay nearYear = some h →
    0 ≤ julianDay - 2452349 ∧ julianDay - 2452349 < 9154 := by
  intro julianDay nearYear h hw
  unfold julianToHijriWithOfficialData at hw
  rw [getOfficialDataRange_eq] at hw
  simp only [] at hw
  rw [show HIJRI_EPOCH + tabularYearStartDays 1423 = (2452349 : Int) from by decide] at hw
  split at hw
  · simp at hw
  · next hges =>
    refine ⟨by omega, ?_⟩
    by_contra hbig
    rw [oYearWalk_none_of_exhausted 27 1423 (julianDay - 2452349)
      (by rw [show offSumFrom 1423 = (9154 : Int) from by decide]; omega)] at hw
    simp at hw

/-- Every year from 1423 through 1448 answers hasOfficialData for month 1. -/
theorem hasOfficialData_of_range :
    ∀ y : Int, 1423 ≤ y → y ≤ 1448 → hasOfficialData y 1 = true := by
  intro y h1 h2
  interval_cases y <;> decide

/-- On every reachable Julian Day, the code's gated probe and the spec's
ungated probe agree. -/
theorem probe_eq_spec : ∀ julianDay : Int, 0 ≤ julianDay - HIJRI_EPOCH →
    probeOfficial julianDay ((daysFromEpochToHijri (julianDay - HIJRI_EPOCH)).hy) =
    probeOfficialSpec julianDay ((daysFromEpochToHijri (julianDay - HIJRI_EPOCH)).hy) := by
  intro julianDay hd
  have hE : HIJRI_EPOCH = (1948440 : Int) := rfl
  set a := (daysFromEpochToHijri (julianDay - HIJRI_EPOCH)).hy with ha
  have hc : ∀ y : Int, julianToHijriWithOfficialData julianDay y =
      julianToHijriWithOfficialData julianDay a := fun _ => rfl
  cases hw : julianToHijriWithOfficialData julianDay a with
  | none =>
    unfold probeOfficial probeOfficialSpec
    simp only [List.findSome?_cons, List.findSome?_nil, hc, hw]
    simp
  | some hOff =>
    obtain ⟨hw0, hw9⟩ := walk_some_in_window julianDay a hOff hw
    have hdrift : 1423 ≤ a ∧ a ≤ 1448 := by
      rw [ha]
      exact approx_hy_in_table (julianDay - HIJRI_EPOCH) (by omega) (by omega)
    have hmid : hasOfficialData a 1 = true := hasOfficialData_of_range a hdrift.1 hdrift.2
    unfold probeOfficial probeOfficialSpec
    simp only [List.findSome?_cons, List.findSome?_nil, hc, hw]
    by_cases h1 : hasOfficialData (a - 1) 1 <;> simp [h1, hmid]

/-- The shared conversion tail agrees with its spec-worded variant. -/
theorem toHijriVia_eq_spec : ∀ julianDay : Int,
    toHijriVia julianDay = toHijriViaSpec julianDay := by
  intro julianDay
  unfold toHijriVia toHijriViaSpec julianToHijriTabular
  split
  · rfl
  · next hge =>
    show Except.ok (hijriResultOf julianDay (daysFromEpochToHijri (julianDay - HIJRI_EPOCH))
        (probeOfficial julianDay (daysFromEpochToHijri (julianDay - HIJRI_EPOCH)).hy)) =
      Except.ok (hijriResultOf julianDay (daysFromEpochToHijri (julianDay - HIJRI_EPOCH))
        (probeOfficialSpec julianDay (daysFromEpochToHijri (julianDay - HIJRI_EPOCH)).hy))
    rw [probe_eq_spec julianDay (by omega)]

/-- C1: for every Jalaali or Gregorian input, the conversion into Hijri equals
the spec-described pipeline: the tabular estimate's year is probed at offsets
-1, 0, +1 in order, the first non-null official walk result wins with source
"official", and otherwise the tabular estimate is returned with source
"tabular". -/
theorem c1_windowed_probe_matches_spec :
    (∀ jy jm jd : Int, jalaaliToHijri jy jm jd = jalaaliToHijriSpec jy jm jd) ∧
    (∀ gy gm gd : Int, gregorianToHijri gy gm gd = gregorianToHijriSpec gy gm gd) := by
  constructor
  · intro jy jm jd
    unfold jalaaliToHijri jalaaliToHijriSpec
    split
    · rfl
    · exact toHijriVia_eq_spec _
  · intro gy gm gd
    unfold gregorianToHijri gregorianToHijriSpec
    split
    · rfl
    · exact toHijriVia_eq_spec _
